import Mathlib

/-!
Verification of the sensors-info request-validation and query engine
(`validators.ts` + `sensors-info.ts` + `sensors-dao.ts`, prj1/prj2/prj3
revisions) against its natural-language specification.

The TypeScript sources are shallowly embedded: flat string-keyed request
records become structures of `Option String` fields, JavaScript numbers
(decimal strings accepted by the validators) become rationals, the
in-memory string-keyed object collections become lists with first-match
replacement, and the MongoDB collaborator becomes a list-backed store
with unique-key insertion and filter/sort/skip/limit queries.
-/

/-! ## JavaScript numeric strings

The validators accept numbers with the regex `^[-+]?\d+(\.\d*)?$`
(`NUMBER_CHK`) and non-negative integers with `^\d+$` (`INTEGER_CHK`).
`numParts?` decomposes a string exactly per the first regex; `NumberJS`
is JavaScript `Number(s)` on such strings and `parseIntJS` is JavaScript
`parseInt(s, 10)` on such strings (sign and integer-part digits only).
-/

/-- Numeral value of a digit list, most significant first. -/
def digitsVal (ds : List Char) : Nat :=
  ds.foldl (fun a c => 10 * a + (c.toNat - '0'.toNat)) 0

/-- Sign, integer-part and fraction-part decomposition of a string
matching the validator regex for numbers; `none` when the regex
rejects the string. -/
def numParts? (s : String) : Option (Bool × List Char × List Char) :=
  let sr : Bool × List Char :=
    match s.toList with
    | '-' :: rest => (true, rest)
    | '+' :: rest => (false, rest)
    | cs => (false, cs)
  let ip := sr.2.takeWhile Char.isDigit
  let rest := sr.2.dropWhile Char.isDigit
  if ip.isEmpty then none
  else
    match rest with
    | [] => some (sr.1, ip, [])
    | '.' :: frac => if frac.all Char.isDigit then some (sr.1, ip, frac) else none
    | _ => none

/-- The `NUMBER_CHK` validator of `validators.ts`: the regex
`^[-+]?\d+(\.\d*)?$` for an optionally signed decimal numeral. -/
def numberChk (s : String) : Bool := (numParts? s).isSome

/-- The `INTEGER_CHK` validator of `validators.ts`: the regex `^\d+$`. -/
def integerChk (s : String) : Bool :=
  !s.toList.isEmpty && s.toList.all Char.isDigit

/-- JavaScript `Number(s)` for strings accepted by `numberChk`
(0 on the unreachable reject case, which also matches `Number("")`). -/
def NumberJS (s : String) : ℚ :=
  match numParts? s with
  | some (neg, ip, fp) =>
    let n : ℤ := ((digitsVal ip * 10 ^ fp.length + digitsVal fp : ℕ) : ℤ)
    mkRat (if neg then -n else n) (10 ^ fp.length)
  | none => 0

/-- JavaScript `parseInt(s, 10)` for strings accepted by `numberChk`:
the sign and the digits before the decimal point; the fraction part is
discarded. -/
def parseIntJS (s : String) : ℤ :=
  match numParts? s with
  | some (neg, ip, _) => if neg then -(digitsVal ip : ℤ) else (digitsVal ip : ℤ)
  | none => 0

/-! ## Lexicographic string order

JavaScript compares strings with `<`/`>` lexicographically by code
unit; the find results for sensor types and sensors are sorted
ascending by `id` with exactly such a comparator. -/

/-- Lexicographic less-or-equal on code points. -/
def charListLe : List Char → List Char → Bool
  | [], _ => true
  | _ :: _, [] => false
  | a :: as, b :: bs =>
    if a.toNat < b.toNat then true
    else if b.toNat < a.toNat then false
    else charListLe as bs

/-- Lexicographic less-or-equal on strings, as used by the JavaScript
sort comparators over the `id` fields. -/
def strLe (a b : String) : Bool := charListLe a.toList b.toList

/-! ## Error results

The `Errors` module of the course library is embedded as a `Result`
carrying a list of structured errors, each a message with a
machine-checkable code. -/

/-- Structured error value: a human-readable message and a code such as
REQUIRED, BAD_VAL, BAD_RANGE, BAD_ID or EXISTS. -/
structure Err where
  message : String
  code : String
deriving DecidableEq

/-- Success-or-error result; an error carries every detected error. -/
inductive Result (α : Type) where
  | ok (val : α)
  | err (errors : List Err)
deriving DecidableEq

/-- Truth of success, mirroring `Result.isOk` of the library. -/
def Result.isOk {α : Type} : Result α → Bool
  | .ok _ => true
  | .err _ => false

/-- Error codes carried by a result; empty for a success. -/
def Result.codes {α : Type} : Result α → List String
  | .ok _ => []
  | .err es => es.map (·.code)

/-! ## Field validation

The generic `Checkers.checkFlatReq` routine lives in the external
`cs544-js-utils` package and is not part of this repository; the helpers
below are modelled from the specification (a missing required field
yields a REQUIRED error; a present field failing its format check yields
a BAD_VAL error; field errors are collected in field-declaration order,
then cross-field checks run when their referenced fields resolved, and
the whole error list is returned at once). The per-field specifications
and the cross-field `rangeChk` themselves are taken from the repository
sources (`validators.ts`). -/

/-- Modelled from the spec: message of a REQUIRED error for a missing
field (`checkFlatReq` is not in the repository). -/
def requiredMsg (name : String) : String :=
  "missing value for \"" ++ name ++ "\""

/-- Message of the `NUMBER_CHK` failure, per `validators.ts`. -/
def numberMsg (name : String) : String :=
  "\"" ++ name ++ "\" must be a number"

/-- Message of the `INTEGER_CHK` failure, per `validators.ts`. -/
def integerMsg (name : String) : String :=
  "\"" ++ name ++ "\" must be a non-negative integer"

/-- Message template of `rangeChk` in `validators.ts`, instantiated with
the two field names. -/
def rangeMsg (minName maxName : String) : String :=
  "The value of \"" ++ minName ++ "\" must be less than that of \"" ++ maxName ++ "\""

/-- Modelled from the spec: REQUIRED error for an absent required field. -/
def requiredErr (name : String) (v : Option String) : List Err :=
  match v with
  | none => [⟨requiredMsg name, "REQUIRED"⟩]
  | some _ => []

/-- Modelled from the spec: BAD_VAL error for a present field failing its
format check. -/
def chkErr (name : String) (v : Option String) (chk : String → Bool)
    (msg : String → String) : List Err :=
  match v with
  | none => []
  | some s => if chk s then [] else [⟨msg name, "BAD_VAL"⟩]

/-- Modelled from the spec: a field is resolved for cross-field checking
when it is absent (its default applies) or passes its format check. -/
def fieldOk (v : Option String) (chk : String → Bool) : Bool :=
  match v with
  | none => true
  | some s => chk s

/-- The cross-field `rangeChk` of `validators.ts`: an absent bound
compares against minus or plus infinity and always passes; two present
bounds yield one BAD_RANGE error unless `Number(min) <= Number(max)`. -/
def rangeChkErrs (minName maxName : String) (minV maxV : Option String) : List Err :=
  match minV, maxV with
  | some a, some b =>
    if NumberJS a ≤ NumberJS b then [] else [⟨rangeMsg minName maxName, "BAD_RANGE"⟩]
  | _, _ => []

/-! ## Domain entities (`validators.ts`) -/

/-- Inclusive numeric interval. -/
structure Range where
  min : ℚ
  max : ℚ
deriving DecidableEq

/-- Containment of a value in the inclusive interval. -/
def Range.isWithin (r : Range) (val : ℚ) : Bool :=
  decide (r.min ≤ val) && decide (val ≤ r.max)

/-- Subrange containment test of `validators.ts`:
`superRange.min <= this.min && this.max <= superRange.max`. -/
def Range.isSubrange (r superRange : Range) : Bool :=
  decide (superRange.min ≤ r.min) && decide (r.max ≤ superRange.max)

/-- Sensor-type entity. -/
structure SensorType where
  id : String
  manufacturer : String
  modelNumber : String
  quantity : String
  unit : String
  limits : Range
deriving DecidableEq

/-- Sensor entity. -/
structure Sensor where
  id : String
  sensorTypeId : String
  period : ℚ
  expected : Range
deriving DecidableEq

/-- Sensor-reading entity. -/
structure SensorReading where
  sensorId : String
  timestamp : ℚ
  value : ℚ
deriving DecidableEq

/-! ## Flat requests

A flat request maps field names to strings; a structure of optional
strings records exactly the fields the corresponding checker declares
(undeclared fields play no role downstream). -/

/-- Flat request for addSensorType. -/
structure AddSensorTypeReq where
  id : Option String
  manufacturer : Option String
  modelNumber : Option String
  quantity : Option String
  unit : Option String
  min : Option String
  max : Option String
deriving DecidableEq

/-- Flat request for addSensor. -/
structure AddSensorReq where
  id : Option String
  sensorTypeId : Option String
  period : Option String
  min : Option String
  max : Option String
deriving DecidableEq

/-- Flat request for addSensorReading. -/
structure AddSensorReadingReq where
  sensorId : Option String
  timestamp : Option String
  value : Option String
deriving DecidableEq

/-- Flat request for findSensorTypes: all fields optional, no checks. -/
structure FindSensorTypesReq where
  id : Option String
  manufacturer : Option String
  modelNumber : Option String
  quantity : Option String
  unit : Option String
deriving DecidableEq

/-- Flat request for findSensors: all fields optional, no checks. -/
structure FindSensorsReq where
  id : Option String
  sensorTypeId : Option String
deriving DecidableEq

/-- Flat request for findSensorReadings: `sensorId` required, the four
bounds optional with format checks and two cross-field range checks. -/
structure FindSensorReadingsReq where
  sensorId : Option String
  minTimestamp : Option String
  maxTimestamp : Option String
  minValue : Option String
  maxValue : Option String
deriving DecidableEq

/-- Validation errors of `ADD_SENSOR_TYPE_CHECKS`: seven required
fields, `min`/`max` numeric, then `rangeChk(min, max)`. -/
def sensorTypeErrs (req : AddSensorTypeReq) : List Err :=
  requiredErr "id" req.id
  ++ requiredErr "manufacturer" req.manufacturer
  ++ requiredErr "modelNumber" req.modelNumber
  ++ requiredErr "quantity" req.quantity
  ++ requiredErr "unit" req.unit
  ++ requiredErr "min" req.min ++ chkErr "min" req.min numberChk numberMsg
  ++ requiredErr "max" req.max ++ chkErr "max" req.max numberChk numberMsg
  ++ (if fieldOk req.min numberChk && fieldOk req.max numberChk then
        rangeChkErrs "min" "max" req.min req.max
      else [])

/-- The `makeSensorType` constructor of `validators.ts`: validate, then
coerce the numeric fields and wrap the limits into a `Range`. -/
def makeSensorType (req : AddSensorTypeReq) : Result SensorType :=
  if (sensorTypeErrs req).isEmpty then
    .ok { id := req.id.getD "", manufacturer := req.manufacturer.getD "",
          modelNumber := req.modelNumber.getD "", quantity := req.quantity.getD "",
          unit := req.unit.getD "",
          limits := ⟨NumberJS (req.min.getD ""), NumberJS (req.max.getD "")⟩ }
  else .err (sensorTypeErrs req)

/-- Validation errors of `ADD_SENSOR_CHECKS`: five required fields,
`period` a non-negative integer, `min`/`max` numeric, then
`rangeChk(min, max)`. -/
def sensorErrs (req : AddSensorReq) : List Err :=
  requiredErr "id" req.id
  ++ requiredErr "sensorTypeId" req.sensorTypeId
  ++ requiredErr "period" req.period ++ chkErr "period" req.period integerChk integerMsg
  ++ requiredErr "min" req.min ++ chkErr "min expected" req.min numberChk numberMsg
  ++ requiredErr "max" req.max ++ chkErr "max expected" req.max numberChk numberMsg
  ++ (if fieldOk req.min numberChk && fieldOk req.max numberChk then
        rangeChkErrs "min" "max" req.min req.max
      else [])

/-- The `makeSensor` constructor of `validators.ts`. -/
def makeSensor (req : AddSensorReq) : Result Sensor :=
  if (sensorErrs req).isEmpty then
    .ok { id := req.id.getD "", sensorTypeId := req.sensorTypeId.getD "",
          period := NumberJS (req.period.getD ""),
          expected := ⟨NumberJS (req.min.getD ""), NumberJS (req.max.getD "")⟩ }
  else .err (sensorErrs req)

/-- Validation errors of `ADD_SENSOR_READING_CHECKS`: three required
fields, `timestamp` a non-negative integer, `value` numeric. -/
def sensorReadingErrs (req : AddSensorReadingReq) : List Err :=
  requiredErr "sensorId" req.sensorId
  ++ requiredErr "timestamp" req.timestamp
  ++ chkErr "timestamp" req.timestamp integerChk integerMsg
  ++ requiredErr "value" req.value ++ chkErr "value" req.value numberChk numberMsg

/-- The `makeSensorReading` constructor of `validators.ts`. -/
def makeSensorReading (req : AddSensorReadingReq) : Result SensorReading :=
  if (sensorReadingErrs req).isEmpty then
    .ok { sensorId := req.sensorId.getD "",
          timestamp := NumberJS (req.timestamp.getD ""),
          value := NumberJS (req.value.getD "") }
  else .err (sensorReadingErrs req)

/-- Validation errors of `FIND_VALIDATION_INFO.findSensorReadings`:
`sensorId` required, the timestamp bounds integers, the value bounds
numbers, then the two cross-field range checks. -/
def findSensorReadingsErrs (req : FindSensorReadingsReq) : List Err :=
  requiredErr "sensorId" req.sensorId
  ++ chkErr "minTimestamp" req.minTimestamp integerChk integerMsg
  ++ chkErr "maxTimestamp" req.maxTimestamp integerChk integerMsg
  ++ chkErr "minValue" req.minValue numberChk numberMsg
  ++ chkErr "maxValue" req.maxValue numberChk numberMsg
  ++ (if fieldOk req.minTimestamp integerChk && fieldOk req.maxTimestamp integerChk then
        rangeChkErrs "minTimestamp" "maxTimestamp" req.minTimestamp req.maxTimestamp
      else [])
  ++ (if fieldOk req.minValue numberChk && fieldOk req.maxValue numberChk then
        rangeChkErrs "minValue" "maxValue" req.minValue req.maxValue
      else [])

/-! ## In-memory collections (prj1)

The prj1 `SensorsInfo` holds three string-keyed JavaScript objects.
Property assignment on such an object replaces the value at an existing
key in place and otherwise appends a new key; `dictSet` models exactly
that on a list representation. -/

/-- Replace the first element with the same key in place, or append. -/
def dictSet {α : Type} (key : α → String) : List α → α → List α
  | [], x => [x]
  | y :: l, x => if key y == key x then x :: l else y :: dictSet key l x

/-- First element with the given key, mirroring object property lookup. -/
def lookupByKey {α : Type} (key : α → String) (l : List α) (k : String) : Option α :=
  l.find? (fun y => key y == k)

/-- Replacement used by prj1 `addSensorReading`: `findIndex` on equal
timestamp replaces that element, otherwise the reading is pushed. -/
def replaceFirstByTimestamp : List SensorReading → SensorReading → List SensorReading
  | [], r => [r]
  | c :: l, r =>
    if c.timestamp == r.timestamp then r :: l else c :: replaceFirstByTimestamp l r

/-- State of the prj1 in-memory `SensorsInfo`: sensor types and sensors
keyed by id, readings keyed by sensor id as per-sensor arrays. -/
structure SIState where
  sensorTypes : List SensorType
  sensors : List Sensor
  sensorReadings : List (String × List SensorReading)
deriving DecidableEq

/-- The empty initial state. -/
def SIState.empty : SIState := ⟨[], [], []⟩

/-- Per-sensor reading array of a state, when present. -/
def SIState.readingsFor (st : SIState) (sid : String) : Option (List SensorReading) :=
  (lookupByKey Prod.fst st.sensorReadings sid).map Prod.snd

namespace Prj1

/-- The prj1 `SensorsInfo.addSensorType`: validate and construct, then
upsert by id; returns the stored sensor type in a one-element array. -/
def addSensorType (st : SIState) (req : AddSensorTypeReq) :
    Result (List SensorType) × SIState :=
  match makeSensorType req with
  | .err es => (.err es, st)
  | .ok t =>
    (.ok [t], { st with sensorTypes := dictSet SensorType.id st.sensorTypes t })

/-- The prj1 `SensorsInfo.addSensor`: validate and construct; verify the
referenced sensor type exists (else BAD_ID) and the expected range is a
subrange of its limits (else BAD_RANGE); then upsert by id. -/
def addSensor (st : SIState) (req : AddSensorReq) :
    Result (List Sensor) × SIState :=
  match makeSensor req with
  | .err es => (.err es, st)
  | .ok s =>
    match lookupByKey SensorType.id st.sensorTypes s.sensorTypeId with
    | none =>
      (.err [⟨"Unknown sensor type " ++ s.sensorTypeId, "BAD_ID"⟩], st)
    | some ty =>
      if s.expected.isSubrange ty.limits then
        (.ok [s], { st with sensors := dictSet Sensor.id st.sensors s })
      else
        (.err [⟨"Expected range of sensor " ++ s.id ++ " is not within the limits of sensor-type "
                 ++ s.sensorTypeId, "BAD_RANGE"⟩], st)

/-- The prj1 `SensorsInfo.addSensorReading`: validate and construct;
verify the referenced sensor exists (else BAD_ID); then replace the
reading with the same timestamp in the per-sensor array, push onto it,
or start a new per-sensor array. -/
def addSensorReading (st : SIState) (req : AddSensorReadingReq) :
    Result (List SensorReading) × SIState :=
  match makeSensorReading req with
  | .err es => (.err es, st)
  | .ok r =>
    match lookupByKey Sensor.id st.sensors r.sensorId with
    | none => (.err [⟨"Unknown sensor " ++ r.sensorId, "BAD_ID"⟩], st)
    | some _ =>
      match lookupByKey Prod.fst st.sensorReadings r.sensorId with
      | some entry =>
        let rs := dictSet Prod.fst st.sensorReadings
          (r.sensorId, replaceFirstByTimestamp entry.2 r)
        (.ok [r], { st with sensorReadings := rs })
      | none =>
        (.ok [r], { st with sensorReadings := st.sensorReadings ++ [(r.sensorId, [r])] })

/-- Per-field filter step of the prj1 find loops: the constraint only
applies when the entity field is truthy (a non-empty string) and the
filter specifies the field. -/
def matchesStrField (entityVal : String) (filterVal : Option String) : Bool :=
  match filterVal with
  | none => true
  | some v => entityVal == "" || entityVal == v

/-- Composite filter of the prj1 `findSensorTypes` loop over the five
declared search fields. -/
def typeFilter (req : FindSensorTypesReq) (t : SensorType) : Bool :=
  matchesStrField t.id req.id
  && matchesStrField t.manufacturer req.manufacturer
  && matchesStrField t.modelNumber req.modelNumber
  && matchesStrField t.quantity req.quantity
  && matchesStrField t.unit req.unit

/-- Ascending id order used by the sort comparators of the find loops. -/
def SensorType.idLe (a b : SensorType) : Prop := strLe a.id b.id = true

instance : DecidableRel SensorType.idLe :=
  fun a b => inferInstanceAs (Decidable (strLe a.id b.id = true))

/-- The prj1 `SensorsInfo.findSensorTypes`: the search fields are all
optional and uncheckable, so validation never fails; filter the stored
sensor types and sort ascending by id. -/
def findSensorTypes (st : SIState) (req : FindSensorTypesReq) :
    Result (List SensorType) :=
  .ok ((st.sensorTypes.filter (typeFilter req)).insertionSort SensorType.idLe)

/-- Composite filter of the prj1 `findSensors` loop over the two
declared search fields. -/
def sensorFilter (req : FindSensorsReq) (s : Sensor) : Bool :=
  matchesStrField s.id req.id && matchesStrField s.sensorTypeId req.sensorTypeId

/-- Ascending id order on sensors. -/
def Sensor.idLe (a b : Sensor) : Prop := strLe a.id b.id = true

instance : DecidableRel Sensor.idLe :=
  fun a b => inferInstanceAs (Decidable (strLe a.id b.id = true))

/-- The prj1 `SensorsInfo.findSensors`: filter the stored sensors and
sort ascending by id; validation never fails. -/
def findSensors (st : SIState) (req : FindSensorsReq) : Result (List Sensor) :=
  .ok ((st.sensors.filter (sensorFilter req)).insertionSort Sensor.idLe)

/-- Truthiness of a JavaScript string: every non-empty string. -/
def truthy (s : String) : Bool := s != ""

/-- Lower-bound exclusion step of the prj1 `findSensorReadings` loop:
a reading is dropped when the bound is supplied (and truthy) and the
compared quantity is below `parseInt(bound, 10)`. -/
def exclLo (bound : Option String) (x : ℚ) : Bool :=
  match bound with
  | none => false
  | some s => truthy s && decide (x < (parseIntJS s : ℚ))

/-- Upper-bound exclusion step of the prj1 `findSensorReadings` loop. -/
def exclHi (bound : Option String) (x : ℚ) : Bool :=
  match bound with
  | none => false
  | some s => truthy s && decide ((parseIntJS s : ℚ) < x)

/-- Composite reading filter of the prj1 `findSensorReadings` loop. Note
that all four bounds, the fractional value bounds included, go through
`parseInt`. -/
def readingFilter (req : FindSensorReadingsReq) (r : SensorReading) : Bool :=
  !(exclLo req.minTimestamp r.timestamp)
  && !(exclHi req.maxTimestamp r.timestamp)
  && !(exclLo req.minValue r.value)
  && !(exclHi req.maxValue r.value)

/-- Ascending timestamp order used by the reading sort comparator. -/
def SensorReading.tsLe (a b : SensorReading) : Prop := a.timestamp ≤ b.timestamp

instance : DecidableRel SensorReading.tsLe :=
  fun a b => inferInstanceAs (Decidable (a.timestamp ≤ b.timestamp))

/-- The prj1 `SensorsInfo.findSensorReadings`: validate the search
request; then filter the per-sensor array of the requested sensor by the
four parseInt-parsed bounds and sort ascending by timestamp. -/
def findSensorReadings (st : SIState) (req : FindSensorReadingsReq) :
    Result (List SensorReading) :=
  if (findSensorReadingsErrs req).isEmpty then
    let entry := (st.readingsFor (req.sensorId.getD "")).getD []
    .ok ((entry.filter (readingFilter req)).insertionSort SensorReading.tsLe)
  else .err (findSensorReadingsErrs req)

end Prj1

/-! ## Search objects with infinite defaults (prj2/prj3 `validators.ts`)

The `SensorReadingSearch` constructor resolves each absent bound to
minus or plus infinity; an extended-rational type carries those values.
The prj3 search classes additionally carry the optional paging fields
`count` and `index` (the prj3 `validators.ts` is not part of the
repository snapshot; those two fields are modelled from the spec as
validated non-negative integers). -/

/-- Extended rational: minus infinity, a finite value, plus infinity. -/
inductive ENum where
  | ninf
  | fin (q : ℚ)
  | pinf
deriving DecidableEq

/-- Order on extended rationals, matching IEEE comparisons against the
JavaScript infinities. -/
def ENum.le : ENum → ENum → Bool
  | .ninf, _ => true
  | _, .pinf => true
  | .fin a, .fin b => decide (a ≤ b)
  | _, _ => false

/-- Resolution of a lower bound by the `SensorReadingSearch`
constructor: minus infinity when absent, `Number(s)` when supplied. -/
def boundLo (v : Option String) : ENum :=
  match v with
  | none => .ninf
  | some s => .fin (NumberJS s)

/-- Resolution of an upper bound by the `SensorReadingSearch`
constructor: plus infinity when absent, `Number(s)` when supplied. -/
def boundHi (v : Option String) : ENum :=
  match v with
  | none => .pinf
  | some s => .fin (NumberJS s)

/-- Validated sensor-reading search: mandatory sensor id, four resolved
bounds, and the prj3 paging fields. -/
structure SensorReadingSearch where
  sensorId : String
  minTimestamp : ENum
  maxTimestamp : ENum
  minValue : ENum
  maxValue : ENum
  count : Option ℕ
  index : Option ℕ
deriving DecidableEq

/-- The prj2 `SensorReadingSearch` constructor applied to a checked
request: each bound field resolves to an infinity when absent and to
`Number` of the supplied string otherwise. -/
def SensorReadingSearch.ofChecked (req : FindSensorReadingsReq) : SensorReadingSearch :=
  ⟨req.sensorId.getD "", boundLo req.minTimestamp, boundHi req.maxTimestamp,
   boundLo req.minValue, boundHi req.maxValue, none, none⟩

/-- Validated sensor-type search with the prj3 paging fields. -/
structure SensorTypeSearch where
  id : Option String
  manufacturer : Option String
  modelNumber : Option String
  quantity : Option String
  unit : Option String
  count : Option ℕ
  index : Option ℕ
deriving DecidableEq

/-- Validated sensor search with the prj3 paging fields. -/
structure SensorSearch where
  id : Option String
  sensorTypeId : Option String
  count : Option ℕ
  index : Option ℕ
deriving DecidableEq

/-! ## Persistence collaborator (prj3 `sensors-dao.ts`)

The DAO keeps three MongoDB collections: sensor types and sensors use
the entity id as the unique `_id`, and sensor readings carry a unique
compound index on `(sensorId, timestamp)`. `insertOne` against an
existing unique key raises the duplicate-key error that
`checkDuplicateError` maps to EXISTS. Queries are built with
`ignoreUndefined`, so only supplied fields constrain, and each find
sorts by its key, then applies `skip(index)` and `limit(count)` with
the destructuring defaults `DEFAULT_COUNT` and `DEFAULT_INDEX`. -/

/-- Modelled from the spec: `params.ts` of prj3 is not part of the
repository snapshot. The web-service tests require `DEFAULT_COUNT` to be
a positive page size (an unpaged find returns exactly `DEFAULT_COUNT`
results); the representative value 5 is used. -/
def DEFAULT_COUNT : ℕ := 5

/-- Modelled from the spec: `params.ts` of prj3 is not part of the
repository snapshot. Paging starts at index 0 when `index` is absent. -/
def DEFAULT_INDEX : ℕ := 0

/-- MongoDB `cursor.limit(count)`: `limit(0)` imposes no limit, any
positive count truncates. -/
def mongoLimit {α : Type} (count : ℕ) (l : List α) : List α :=
  if count = 0 then l else l.take count

/-- State of the three DAO-backed collections. -/
structure DbState where
  sensorTypes : List SensorType
  sensors : List Sensor
  sensorReadings : List SensorReading
deriving DecidableEq

/-- The empty database. -/
def DbState.empty : DbState := ⟨[], [], []⟩

namespace Dao

/-- The prj3 `SensorsDao.addSensorType`: `insertOne` with `_id` set to
the sensor-type id; a duplicate id yields EXISTS and leaves the
collection unchanged. -/
def addSensorType (db : DbState) (t : SensorType) : Result SensorType × DbState :=
  if db.sensorTypes.any (fun x => x.id == t.id) then
    (.err [⟨"duplicate sensorType " ++ t.id, "EXISTS"⟩], db)
  else
    (.ok t, { db with sensorTypes := db.sensorTypes ++ [t] })

/-- The prj3 `SensorsDao.addSensor`, analogous to `addSensorType`. -/
def addSensor (db : DbState) (s : Sensor) : Result Sensor × DbState :=
  if db.sensors.any (fun x => x.id == s.id) then
    (.err [⟨"duplicate sensor " ++ s.id, "EXISTS"⟩], db)
  else
    (.ok s, { db with sensors := db.sensors ++ [s] })

/-- The prj3 `SensorsDao.addSensorReading`: the unique compound index on
`(sensorId, timestamp)` makes a duplicate pair fail with EXISTS. -/
def addSensorReading (db : DbState) (r : SensorReading) : Result SensorReading × DbState :=
  if db.sensorReadings.any (fun x => x.sensorId == r.sensorId && x.timestamp == r.timestamp) then
    (.err [⟨"duplicate sensorReading " ++ r.sensorId, "EXISTS"⟩], db)
  else
    (.ok r, { db with sensorReadings := db.sensorReadings ++ [r] })

/-- Equality constraint of a supplied query field under
`ignoreUndefined`: an absent field imposes no constraint. -/
def eqConstraint (filterVal : Option String) (entityVal : String) : Bool :=
  match filterVal with
  | none => true
  | some v => entityVal == v

/-- MongoDB query built by the prj3 `findSensorTypes` from a search:
equality on every supplied primitive field. -/
def typeQuery (q : SensorTypeSearch) (t : SensorType) : Bool :=
  eqConstraint q.id t.id
  && eqConstraint q.manufacturer t.manufacturer
  && eqConstraint q.modelNumber t.modelNumber
  && eqConstraint q.quantity t.quantity
  && eqConstraint q.unit t.unit

/-- The prj3 `SensorsDao.findSensorTypes`: filter by the query, sort by
id, skip the index and limit to the count, both defaulted. -/
def findSensorTypes (db : DbState) (q : SensorTypeSearch) : Result (List SensorType) :=
  let count := q.count.getD DEFAULT_COUNT
  let index := q.index.getD DEFAULT_INDEX
  .ok (mongoLimit count
    (((db.sensorTypes.filter (typeQuery q)).insertionSort Prj1.SensorType.idLe).drop index))

/-- MongoDB query built by the prj3 `findSensors` from a search. -/
def sensorQuery (q : SensorSearch) (s : Sensor) : Bool :=
  eqConstraint q.id s.id && eqConstraint q.sensorTypeId s.sensorTypeId

/-- The prj3 `SensorsDao.findSensors`: filter, sort by id, page. -/
def findSensors (db : DbState) (q : SensorSearch) : Result (List Sensor) :=
  let count := q.count.getD DEFAULT_COUNT
  let index := q.index.getD DEFAULT_INDEX
  .ok (mongoLimit count
    (((db.sensors.filter (sensorQuery q)).insertionSort Prj1.Sensor.idLe).drop index))

/-- MongoDB query built by the prj3 `findSensorReadings`: equality on
the sensor id and the `$gte`/`$lte` bound pairs over timestamp and
value. -/
def readingQuery (q : SensorReadingSearch) (r : SensorReading) : Bool :=
  r.sensorId == q.sensorId
  && ENum.le q.minTimestamp (.fin r.timestamp)
  && ENum.le (.fin r.timestamp) q.maxTimestamp
  && ENum.le q.minValue (.fin r.value)
  && ENum.le (.fin r.value) q.maxValue

/-- The prj3 `SensorsDao.findSensorReadings`: filter, sort by
timestamp, page. -/
def findSensorReadings (db : DbState) (q : SensorReadingSearch) : Result (List SensorReading) :=
  let count := q.count.getD DEFAULT_COUNT
  let index := q.index.getD DEFAULT_INDEX
  .ok (mongoLimit count
    (((db.sensorReadings.filter (readingQuery q)).insertionSort Prj1.SensorReading.tsLe).drop index))

end Dao

namespace Prj3

/-- The prj3 `SensorsInfo.addSensorType`: validate and construct, then
hand the entity to the DAO. -/
def addSensorType (db : DbState) (req : AddSensorTypeReq) : Result SensorType × DbState :=
  match makeSensorType req with
  | .err es => (.err es, db)
  | .ok t => Dao.addSensorType db t

/-- The prj3 `SensorsInfo.addSensor`: validate and construct; resolve
the referenced sensor type through `dao.findSensorTypes` (anything but
exactly one match is BAD_ID); check the subrange containment (else
BAD_RANGE); then hand the sensor to the DAO. -/
def addSensor (db : DbState) (req : AddSensorReq) : Result Sensor × DbState :=
  match makeSensor req with
  | .err es => (.err es, db)
  | .ok s =>
    match Dao.findSensorTypes db ⟨some s.sensorTypeId, none, none, none, none, none, none⟩ with
    | .err es => (.err es, db)
    | .ok types =>
      match types with
      | [ty] =>
        if s.expected.isSubrange ty.limits then Dao.addSensor db s
        else
          (.err [⟨"expected range of sensor " ++ s.id ++ " is not within the limits of sensor-type "
                   ++ s.sensorTypeId, "BAD_RANGE"⟩], db)
      | _ => (.err [⟨"unknown sensor type " ++ s.sensorTypeId, "BAD_ID"⟩], db)

/-- The prj3 `SensorsInfo.addSensorReading`: validate and construct;
resolve the referenced sensor through `dao.findSensors` (anything but
exactly one match is BAD_ID); then hand the reading to the DAO. -/
def addSensorReading (db : DbState) (req : AddSensorReadingReq) :
    Result SensorReading × DbState :=
  match makeSensorReading req with
  | .err es => (.err es, db)
  | .ok r =>
    match Dao.findSensors db ⟨some r.sensorId, none, none, none⟩ with
    | .err es => (.err es, db)
    | .ok sensors =>
      match sensors with
      | [_] => Dao.addSensorReading db r
      | _ => (.err [⟨"unknown sensor id " ++ r.sensorId, "BAD_ID"⟩], db)

end Prj3

/-! ## Specification-side predicates

These definitions transcribe the wording of the specification claims
(not the code) and are compared against the embedded operations. -/

/-- Equality-filter semantics in the specification wording: every field
specified in the request must equal the entity field exactly; absent
fields impose no constraint. -/
def specTypeMatch (req : FindSensorTypesReq) (t : SensorType) : Bool :=
  (match req.id with | none => true | some v => t.id == v)
  && (match req.manufacturer with | none => true | some v => t.manufacturer == v)
  && (match req.modelNumber with | none => true | some v => t.modelNumber == v)
  && (match req.quantity with | none => true | some v => t.quantity == v)
  && (match req.unit with | none => true | some v => t.unit == v)

/-- Reading-bounds semantics in the specification wording: each supplied
bound is the numeric value of its string (fractional allowed) and the
pairs are inclusive; absent bounds impose no constraint. -/
def specReadingInBounds (req : FindSensorReadingsReq) (r : SensorReading) : Bool :=
  (match req.minTimestamp with | none => true | some s => decide (NumberJS s ≤ r.timestamp))
  && (match req.maxTimestamp with | none => true | some s => decide (r.timestamp ≤ NumberJS s))
  && (match req.minValue with | none => true | some s => decide (NumberJS s ≤ r.value))
  && (match req.maxValue with | none => true | some s => decide (r.value ≤ NumberJS s))

/-- Window of a sorted match set in the specification wording:
the slice from `index` (inclusive) of length at most `count`. -/
def specWindow {α : Type} (l : List α) (index count : ℕ) : List α :=
  (l.drop index).take count

/-- Full sorted match set of a sensor-type search: every stored sensor
type satisfying the query, ascending by id. -/
def sortedTypeMatches (db : DbState) (q : SensorTypeSearch) : List SensorType :=
  (db.sensorTypes.filter (Dao.typeQuery q)).insertionSort Prj1.SensorType.idLe

/-- Full sorted match set of a sensor-reading search, ascending by
timestamp. -/
def sortedReadingMatches (db : DbState) (q : SensorReadingSearch) : List SensorReading :=
  (db.sensorReadings.filter (Dao.readingQuery q)).insertionSort Prj1.SensorReading.tsLe

/-! ## Concrete fixtures used by witnesses and counterexamples -/

/-- Sensor type `t1` with limits 0 to 100. -/
def egType : SensorType := ⟨"t1", "honeywell", "n100", "pressure", "PSI", ⟨0, 100⟩⟩

/-- Sensor `s1` of type `t1` with expected range 10 to 20. -/
def egSensor : Sensor := ⟨"s1", "t1", 3, ⟨10, 20⟩⟩

/-- Reading of `s1` at timestamp 10 with the fractional value 5.4. -/
def egReading : SensorReading := ⟨"s1", 10, NumberJS "5.4"⟩

/-- State holding `egType`, `egSensor` and `egReading`, built through
the prj1 add operations from `SIState.empty`. -/
def egState : SIState :=
  (Prj1.addSensorReading
    ((Prj1.addSensor
      ((Prj1.addSensorType SIState.empty
        ⟨some "t1", some "honeywell", some "n100", some "pressure", some "PSI",
         some "0", some "100"⟩).2)
      ⟨some "s1", some "t1", some "3", some "10", some "20"⟩).2)
    ⟨some "s1", some "10", some "5.4"⟩).2


/-- Sensor type with an id ordered before `egType`. -/
def egType2 : SensorType := ⟨"a1", "acme", "m7", "temperature", "C", ⟨-50, 50⟩⟩

/-- Database fixture with six sensor types, one more than the default
page size. -/
def dbSix : DbState :=
  ⟨[⟨"a", "m", "n", "q", "u", ⟨0, 1⟩⟩, ⟨"b", "m", "n", "q", "u", ⟨0, 1⟩⟩,
    ⟨"c", "m", "n", "q", "u", ⟨0, 1⟩⟩, ⟨"d", "m", "n", "q", "u", ⟨0, 1⟩⟩,
    ⟨"e", "m", "n", "q", "u", ⟨0, 1⟩⟩, ⟨"f", "m", "n", "q", "u", ⟨0, 1⟩⟩], [], []⟩

/-- Reading stored at a given sensor id and timestamp, when present. -/
def readingAt (st : SIState) (sid : String) (ts : ℚ) : Option SensorReading :=
  ((st.readingsFor sid).getD []).find? (fun x => x.timestamp == ts)

/-! ## Helper lemmas about the collection primitives -/

theorem charListLe_total : ∀ as bs : List Char, charListLe as bs = true ∨ charListLe bs as = true := by
  intro as
  induction as with
  | nil => intro bs; left; simp [charListLe]
  | cons a as ih =>
    intro bs
    cases bs with
    | nil => right; simp [charListLe]
    | cons b bs =>
      simp only [charListLe]
      rcases Nat.lt_trichotomy a.toNat b.toNat with h | h | h
      · left; simp [h]
      · have h1 : ¬ a.toNat < b.toNat := by omega
        have h2 : ¬ b.toNat < a.toNat := by omega
        simp only [h1, h2, if_false]
        exact ih bs
      · right; simp [h]

theorem charListLe_trans : ∀ as bs cs : List Char,
    charListLe as bs = true → charListLe bs cs = true → charListLe as cs = true := by
  intro as
  induction as with
  | nil => intro bs cs _ _; simp [charListLe]
  | cons a as ih =>
    intro bs cs h1 h2
    cases bs with
    | nil => simp [charListLe] at h1
    | cons b bs =>
      cases cs with
      | nil => simp [charListLe] at h2
      | cons c cs =>
        simp only [charListLe] at h1 h2 ⊢
        by_cases hab : a.toNat < b.toNat
        · simp only [hab, if_true] at h1
          by_cases hbc : b.toNat < c.toNat
          · have : a.toNat < c.toNat := by omega
            simp [this]
          · by_cases hcb : c.toNat < b.toNat
            · simp [hbc, hcb] at h2
            · have : a.toNat < c.toNat := by omega
              simp [this]
        · by_cases hba : b.toNat < a.toNat
          · simp [hab, hba] at h1
          · have hab2 : a.toNat = b.toNat := by omega
            simp only [hab, hba, if_false] at h1
            by_cases hbc : b.toNat < c.toNat
            · have : a.toNat < c.toNat := by omega
              simp [this]
            · by_cases hcb : c.toNat < b.toNat
              · simp [hbc, hcb] at h2
              · have g1 : ¬ a.toNat < c.toNat := by omega
                have g2 : ¬ c.toNat < a.toNat := by omega
                simp only [hbc, hcb, if_false] at h2
                simp only [g1, g2, if_false]
                exact ih bs cs h1 h2

theorem sorted_insertionSort_typeIdLe (l : List SensorType) :
    (l.insertionSort Prj1.SensorType.idLe).Sorted Prj1.SensorType.idLe := by
  haveI : IsTotal SensorType Prj1.SensorType.idLe :=
    ⟨fun a b => charListLe_total a.id.toList b.id.toList⟩
  haveI : IsTrans SensorType Prj1.SensorType.idLe :=
    ⟨fun _ _ _ h1 h2 => charListLe_trans _ _ _ h1 h2⟩
  exact List.sorted_insertionSort _ _

theorem sorted_insertionSort_sensorIdLe (l : List Sensor) :
    (l.insertionSort Prj1.Sensor.idLe).Sorted Prj1.Sensor.idLe := by
  haveI : IsTotal Sensor Prj1.Sensor.idLe :=
    ⟨fun a b => charListLe_total a.id.toList b.id.toList⟩
  haveI : IsTrans Sensor Prj1.Sensor.idLe :=
    ⟨fun _ _ _ h1 h2 => charListLe_trans _ _ _ h1 h2⟩
  exact List.sorted_insertionSort _ _

theorem sorted_insertionSort_tsLe (l : List SensorReading) :
    (l.insertionSort Prj1.SensorReading.tsLe).Sorted Prj1.SensorReading.tsLe := by
  haveI : IsTotal SensorReading Prj1.SensorReading.tsLe :=
    ⟨fun a b => le_total a.timestamp b.timestamp⟩
  haveI : IsTrans SensorReading Prj1.SensorReading.tsLe :=
    ⟨fun _ _ _ h1 h2 => le_trans h1 h2⟩
  exact List.sorted_insertionSort _ _


theorem isSubrange_iff (r sup : Range) :
    r.isSubrange sup = true ↔ (sup.min ≤ r.min ∧ r.max ≤ sup.max) := by
  simp [Range.isSubrange]

theorem lookupByKey_dictSet_self {α : Type} (key : α → String) (l : List α) (x : α) :
    lookupByKey key (dictSet key l x) (key x) = some x := by
  induction l with
  | nil => simp [dictSet, lookupByKey, List.find?]
  | cons y l ih =>
    by_cases h : (key y == key x) = true
    · simp [dictSet, h, lookupByKey, List.find?]
    · have h2 : (key y == key x) = false := by simpa using h
      simp only [dictSet, h2, Bool.false_eq_true, if_false, lookupByKey, List.find?] at ih ⊢
      exact ih

theorem lookupByKey_dictSet_ne {α : Type} (key : α → String) (l : List α) (x : α)
    (k : String) (hne : k ≠ key x) :
    lookupByKey key (dictSet key l x) k = lookupByKey key l k := by
  have hx : (key x == k) = false := by
    simp only [beq_eq_false_iff_ne, ne_eq]
    exact fun he => hne he.symm
  induction l with
  | nil => simp [dictSet, lookupByKey, List.find?, hx]
  | cons y l ih =>
    by_cases h : (key y == key x) = true
    · have hyx : key y = key x := by simpa using h
      have hy : (key y == k) = false := by simp [hyx, hx]
      simp [dictSet, h, lookupByKey, List.find?, hx, hy]
    · have h2 : (key y == key x) = false := by simpa using h
      simp only [dictSet, h2, Bool.false_eq_true, if_false, lookupByKey, List.find?] at ih ⊢
      cases hy : (key y == k) <;> simp [hy, ih]

theorem find?_replaceFirstByTimestamp_self (l : List SensorReading) (r : SensorReading) :
    (replaceFirstByTimestamp l r).find? (fun x => x.timestamp == r.timestamp) = some r := by
  induction l with
  | nil => simp [replaceFirstByTimestamp, List.find?]
  | cons c l ih =>
    by_cases h : (c.timestamp == r.timestamp) = true
    · simp [replaceFirstByTimestamp, h, List.find?]
    · have h2 : (c.timestamp == r.timestamp) = false := by simpa using h
      simp only [replaceFirstByTimestamp, h2, Bool.false_eq_true, if_false, List.find?]
      exact ih

theorem mem_replaceFirstByTimestamp {l : List SensorReading} {r x : SensorReading}
    (h : x.timestamp ≠ r.timestamp) :
    x ∈ replaceFirstByTimestamp l r ↔ x ∈ l := by
  have hxr : x ≠ r := fun he => h (by rw [he])
  induction l with
  | nil =>
    simp only [replaceFirstByTimestamp, List.mem_singleton, List.not_mem_nil, iff_false]
    exact hxr
  | cons c l ih =>
    by_cases hc : (c.timestamp == r.timestamp) = true
    · have hxc : x ≠ c := fun he => h (by rw [he]; exact beq_iff_eq.mp hc)
      simp only [replaceFirstByTimestamp, if_pos hc, List.mem_cons]
      constructor
      · rintro (he | hm)
        · exact absurd he hxr
        · exact Or.inr hm
      · rintro (he | hm)
        · exact absurd he hxc
        · exact Or.inr hm
    · simp only [replaceFirstByTimestamp, if_neg hc, List.mem_cons, ih]

theorem matchesStrField_iff (e : String) (v : Option String) :
    Prj1.matchesStrField e v = true ↔ (∀ x, v = some x → e = "" ∨ e = x) := by
  cases v <;> simp [Prj1.matchesStrField]

theorem typeQuery_id_only (sid : String) (t : SensorType) :
    Dao.typeQuery ⟨some sid, none, none, none, none, none, none⟩ t = (t.id == sid) := by
  simp [Dao.typeQuery, Dao.eqConstraint]

theorem sensorQuery_id_only (sid : String) (s : Sensor) :
    Dao.sensorQuery ⟨some sid, none, none, none⟩ s = (s.id == sid) := by
  simp [Dao.sensorQuery, Dao.eqConstraint]

/-! ## Claim C1 -/

/-- C1: for every request that passes field validation, addSensor fails
with BAD_ID when the referenced sensor type is not stored; fails with
BAD_RANGE when the type exists but the expected range is not a subrange
of its limits (not (limits.min <= expected.min and expected.max <=
limits.max)); and otherwise stores the sensor and returns it. Stated for
the prj1 in-memory revision and for the prj3 DAO-backed revision (whose
store step additionally requires a fresh sensor id, the duplicate fork
being the subject of C6). -/
theorem claimC1_addSensor_checks :
    (∀ (st : SIState) (req : AddSensorReq) (s : Sensor), makeSensor req = .ok s →
      (lookupByKey SensorType.id st.sensorTypes s.sensorTypeId = none →
        (Prj1.addSensor st req).1.codes = ["BAD_ID"] ∧ (Prj1.addSensor st req).2 = st) ∧
      (∀ ty : SensorType, lookupByKey SensorType.id st.sensorTypes s.sensorTypeId = some ty →
        ¬ (ty.limits.min ≤ s.expected.min ∧ s.expected.max ≤ ty.limits.max) →
        (Prj1.addSensor st req).1.codes = ["BAD_RANGE"] ∧ (Prj1.addSensor st req).2 = st) ∧
      (∀ ty : SensorType, lookupByKey SensorType.id st.sensorTypes s.sensorTypeId = some ty →
        ty.limits.min ≤ s.expected.min → s.expected.max ≤ ty.limits.max →
        Prj1.addSensor st req
          = (.ok [s], { st with sensors := dictSet Sensor.id st.sensors s }))) ∧
    (∀ (db : DbState) (req : AddSensorReq) (s : Sensor), makeSensor req = .ok s →
      (db.sensorTypes.filter (fun t => t.id == s.sensorTypeId) = [] →
        (Prj3.addSensor db req).1.codes = ["BAD_ID"] ∧ (Prj3.addSensor db req).2 = db) ∧
      (∀ ty : SensorType, db.sensorTypes.filter (fun t => t.id == s.sensorTypeId) = [ty] →
        ¬ (ty.limits.min ≤ s.expected.min ∧ s.expected.max ≤ ty.limits.max) →
        (Prj3.addSensor db req).1.codes = ["BAD_RANGE"] ∧ (Prj3.addSensor db req).2 = db) ∧
      (∀ ty : SensorType, db.sensorTypes.filter (fun t => t.id == s.sensorTypeId) = [ty] →
        ty.limits.min ≤ s.expected.min → s.expected.max ≤ ty.limits.max →
        (db.sensors.any (fun x => x.id == s.id)) = false →
        Prj3.addSensor db req = (.ok s, { db with sensors := db.sensors ++ [s] }))) := by
  constructor
  · intro st req s hmk
    refine ⟨?_, ?_, ?_⟩
    · intro hnone
      simp [Prj1.addSensor, hmk, hnone, Result.codes]
    · intro ty hty hsub
      have hb : s.expected.isSubrange ty.limits = false := by
        rw [← Bool.not_eq_true]
        exact fun hb => hsub ((isSubrange_iff _ _).mp hb)
      simp [Prj1.addSensor, hmk, hty, hb, Result.codes]
    · intro ty hty h1 h2
      have hb : s.expected.isSubrange ty.limits = true := (isSubrange_iff _ _).mpr ⟨h1, h2⟩
      simp [Prj1.addSensor, hmk, hty, hb]
  · intro db req s hmk
    have hq : db.sensorTypes.filter
        (Dao.typeQuery ⟨some s.sensorTypeId, none, none, none, none, none, none⟩)
        = db.sensorTypes.filter (fun t => t.id == s.sensorTypeId) := by
      apply List.filter_congr
      intro t _
      exact typeQuery_id_only s.sensorTypeId t
    refine ⟨?_, ?_, ?_⟩
    · intro hnone
      simp [Prj3.addSensor, hmk, Dao.findSensorTypes, hq, hnone, Result.codes,
            mongoLimit, List.insertionSort, DEFAULT_COUNT, DEFAULT_INDEX]
    · intro ty hty hsub
      have hb : s.expected.isSubrange ty.limits = false := by
        rw [← Bool.not_eq_true]
        exact fun hb => hsub ((isSubrange_iff _ _).mp hb)
      simp [Prj3.addSensor, hmk, Dao.findSensorTypes, hq, hty, hb, Result.codes,
            mongoLimit, List.insertionSort, List.orderedInsert, DEFAULT_COUNT, DEFAULT_INDEX]
    · intro ty hty h1 h2 hfresh
      have hb : s.expected.isSubrange ty.limits = true := (isSubrange_iff _ _).mpr ⟨h1, h2⟩
      simp [Prj3.addSensor, hmk, Dao.findSensorTypes, hq, hty, hb, Dao.addSensor, hfresh,
            mongoLimit, List.insertionSort, List.orderedInsert, DEFAULT_COUNT, DEFAULT_INDEX]

/-- Witness instantiating C1 on the happy path: a concrete valid sensor
request against a one-type store. -/
theorem claimC1_addSensor_checks_witness :
    Prj1.addSensor ⟨[egType], [], []⟩ ⟨some "s1", some "t1", some "3", some "10", some "20"⟩
      = (.ok [egSensor],
         { (⟨[egType], [], []⟩ : SIState) with
             sensors := dictSet Sensor.id (SIState.sensors ⟨[egType], [], []⟩) egSensor }) :=
  (claimC1_addSensor_checks.1 ⟨[egType], [], []⟩
    ⟨some "s1", some "t1", some "3", some "10", some "20"⟩ egSensor (by decide)).2.2
    egType (by decide) (by decide) (by decide)

/-! ## Claim C5 -/

theorem mongoLimit_drop_sublist {α : Type} (c i : ℕ) (l : List α) :
    List.Sublist (mongoLimit c (l.drop i)) l := by
  unfold mongoLimit
  split
  · exact List.drop_sublist i l
  · exact (List.take_sublist _ _).trans (List.drop_sublist i l)

/-- C5: every successful findSensorTypes and findSensors result is
sorted ascending by id under the lexicographic string order, and every
successful findSensorReadings result is sorted ascending by timestamp;
for every state of the collections and every valid request, in the prj1
in-memory revision and in the prj3 DAO. -/
theorem claimC5_results_sorted :
    (∀ (st : SIState) (req : FindSensorTypesReq) (l : List SensorType),
       Prj1.findSensorTypes st req = .ok l → l.Sorted Prj1.SensorType.idLe) ∧
    (∀ (st : SIState) (req : FindSensorsReq) (l : List Sensor),
       Prj1.findSensors st req = .ok l → l.Sorted Prj1.Sensor.idLe) ∧
    (∀ (st : SIState) (req : FindSensorReadingsReq) (l : List SensorReading),
       Prj1.findSensorReadings st req = .ok l → l.Sorted Prj1.SensorReading.tsLe) ∧
    (∀ (db : DbState) (q : SensorTypeSearch) (l : List SensorType),
       Dao.findSensorTypes db q = .ok l → l.Sorted Prj1.SensorType.idLe) ∧
    (∀ (db : DbState) (q : SensorReadingSearch) (l : List SensorReading),
       Dao.findSensorReadings db q = .ok l → l.Sorted Prj1.SensorReading.tsLe) := by
  refine ⟨?_, ?_, ?_, ?_, ?_⟩
  · intro st req l h
    simp only [Prj1.findSensorTypes, Result.ok.injEq] at h
    rw [← h]
    exact sorted_insertionSort_typeIdLe _
  · intro st req l h
    simp only [Prj1.findSensors, Result.ok.injEq] at h
    rw [← h]
    exact sorted_insertionSort_sensorIdLe _
  · intro st req l h
    simp only [Prj1.findSensorReadings] at h
    split at h
    · simp only [Result.ok.injEq] at h
      rw [← h]
      exact sorted_insertionSort_tsLe _
    · cases h
  · intro db q l h
    simp only [Dao.findSensorTypes, Result.ok.injEq] at h
    rw [← h]
    exact (sorted_insertionSort_typeIdLe _).sublist (mongoLimit_drop_sublist _ _ _)
  · intro db q l h
    simp only [Dao.findSensorReadings, Result.ok.injEq] at h
    rw [← h]
    exact (sorted_insertionSort_tsLe _).sublist (mongoLimit_drop_sublist _ _ _)

/-- Witness instantiating C5 on a two-element store whose insertion
order is the reverse of the id order. -/
theorem claimC5_results_sorted_witness :
    List.Sorted Prj1.SensorType.idLe [egType2, egType] :=
  claimC5_results_sorted.1 ⟨[egType, egType2], [], []⟩ ⟨none, none, none, none, none⟩
    [egType2, egType] (by decide)

/-! ## Claim C3 -/

/-- C3 counterexample: a sensor type stored with an empty manufacturer
field (accepted by validation, which only rejects absent fields) is
returned by a manufacturer search for a different value, because the
prj1 filter guard skips the constraint whenever the entity field is
falsy; the specification-side equality filter rejects it. -/
theorem claimC3_counterexample :
    Prj1.findSensorTypes
      (Prj1.addSensorType SIState.empty
        ⟨some "t9", some "", some "n", some "q", some "u", some "1", some "2"⟩).2
      ⟨none, some "honeywell", none, none, none⟩
      = .ok [⟨"t9", "", "n", "q", "u", ⟨1, 2⟩⟩]
    ∧ specTypeMatch ⟨none, some "honeywell", none, none, none⟩
        ⟨"t9", "", "n", "q", "u", ⟨1, 2⟩⟩ = false := by
  decide

/-- C3 amended: a stored entity is in the find result iff, for every
field specified in the request, the entity field either equals the
specified value or is the empty string (the prj1 filter guard imposes no
constraint on a falsy entity field); fields absent from the request
impose no constraint. -/
theorem claimC3_find_filter :
    (∀ (st : SIState) (req : FindSensorTypesReq) (l : List SensorType),
       Prj1.findSensorTypes st req = .ok l →
       ∀ t : SensorType, t ∈ l ↔ (t ∈ st.sensorTypes ∧
         (∀ v, req.id = some v → t.id = "" ∨ t.id = v) ∧
         (∀ v, req.manufacturer = some v → t.manufacturer = "" ∨ t.manufacturer = v) ∧
         (∀ v, req.modelNumber = some v → t.modelNumber = "" ∨ t.modelNumber = v) ∧
         (∀ v, req.quantity = some v → t.quantity = "" ∨ t.quantity = v) ∧
         (∀ v, req.unit = some v → t.unit = "" ∨ t.unit = v))) ∧
    (∀ (st : SIState) (req : FindSensorsReq) (l : List Sensor),
       Prj1.findSensors st req = .ok l →
       ∀ s : Sensor, s ∈ l ↔ (s ∈ st.sensors ∧
         (∀ v, req.id = some v → s.id = "" ∨ s.id = v) ∧
         (∀ v, req.sensorTypeId = some v → s.sensorTypeId = "" ∨ s.sensorTypeId = v))) := by
  constructor
  · intro st req l h t
    simp only [Prj1.findSensorTypes, Result.ok.injEq] at h
    rw [← h]
    simp only [List.mem_insertionSort, List.mem_filter, Prj1.typeFilter,
               Bool.and_eq_true, matchesStrField_iff]
    tauto
  · intro st req l h s
    simp only [Prj1.findSensors, Result.ok.injEq] at h
    rw [← h]
    simp only [List.mem_insertionSort, List.mem_filter, Prj1.sensorFilter,
               Bool.and_eq_true, matchesStrField_iff]

/-- Witness instantiating the amended C3 on a concrete two-type store
and a manufacturer search matching exactly one of them. -/
theorem claimC3_find_filter_witness :
    egType ∈ ([egType] : List SensorType) ↔ (egType ∈ [egType, egType2] ∧
      (∀ v, (none : Option String) = some v → egType.id = "" ∨ egType.id = v) ∧
      (∀ v, (some "honeywell" : Option String) = some v →
        egType.manufacturer = "" ∨ egType.manufacturer = v) ∧
      (∀ v, (none : Option String) = some v → egType.modelNumber = "" ∨ egType.modelNumber = v) ∧
      (∀ v, (none : Option String) = some v → egType.quantity = "" ∨ egType.quantity = v) ∧
      (∀ v, (none : Option String) = some v → egType.unit = "" ∨ egType.unit = v)) :=
  claimC3_find_filter.1 ⟨[egType, egType2], [], []⟩
    ⟨none, some "honeywell", none, none, none⟩ [egType] (by decide) egType

/-! ## Claim C4 -/

/-- C4 counterexample: with the paging fields absent the prj3 DAO does
not return the entire sorted match set; the destructuring defaults apply
and the result is truncated to the first `DEFAULT_COUNT` matches. -/
theorem claimC4_counterexample :
    Dao.findSensorTypes dbSix ⟨none, none, none, none, none, none, none⟩
      ≠ .ok (sortedTypeMatches dbSix ⟨none, none, none, none, none, none, none⟩)
    ∧ Dao.findSensorTypes dbSix ⟨none, none, none, none, none, none, none⟩
      = .ok (specWindow
          (sortedTypeMatches dbSix ⟨none, none, none, none, none, none, none⟩)
          DEFAULT_INDEX DEFAULT_COUNT) := by
  decide

/-- C4 amended: with `count` (at least 1, since MongoDB `limit(0)` means
no limit) and `index` supplied, the result is the window
`[index, index+count)` of the full sorted match set; with the paging
fields absent the defaults `DEFAULT_INDEX = 0` and `DEFAULT_COUNT`
apply, so the result is the window `[0, DEFAULT_COUNT)`, not the entire
match set. -/
theorem claimC4_paging :
    (∀ (db : DbState) (q : SensorTypeSearch) (c i : ℕ), q.count = some c → q.index = some i →
       1 ≤ c → Dao.findSensorTypes db q = .ok (specWindow (sortedTypeMatches db q) i c)) ∧
    (∀ (db : DbState) (q : SensorTypeSearch), q.count = none → q.index = none →
       Dao.findSensorTypes db q
         = .ok (specWindow (sortedTypeMatches db q) DEFAULT_INDEX DEFAULT_COUNT)) ∧
    (∀ (db : DbState) (q : SensorReadingSearch) (c i : ℕ), q.count = some c → q.index = some i →
       1 ≤ c → Dao.findSensorReadings db q = .ok (specWindow (sortedReadingMatches db q) i c)) ∧
    (∀ (db : DbState) (q : SensorReadingSearch), q.count = none → q.index = none →
       Dao.findSensorReadings db q
         = .ok (specWindow (sortedReadingMatches db q) DEFAULT_INDEX DEFAULT_COUNT)) := by
  refine ⟨?_, ?_, ?_, ?_⟩
  · intro db q c i hc hi h1
    have hz : ¬ c = 0 := by omega
    simp [Dao.findSensorTypes, hc, hi, mongoLimit, hz, specWindow, sortedTypeMatches]
  · intro db q hc hi
    simp [Dao.findSensorTypes, hc, hi, mongoLimit, DEFAULT_COUNT, DEFAULT_INDEX,
          specWindow, sortedTypeMatches]
  · intro db q c i hc hi h1
    have hz : ¬ c = 0 := by omega
    simp [Dao.findSensorReadings, hc, hi, mongoLimit, hz, specWindow, sortedReadingMatches]
  · intro db q hc hi
    simp [Dao.findSensorReadings, hc, hi, mongoLimit, DEFAULT_COUNT, DEFAULT_INDEX,
          specWindow, sortedReadingMatches]

/-- Witness instantiating the amended C4 on the six-type fixture with
an explicit window of two starting at index 1. -/
theorem claimC4_paging_witness :
    Dao.findSensorTypes dbSix ⟨none, none, none, none, none, some 2, some 1⟩
      = .ok (specWindow
          (sortedTypeMatches dbSix ⟨none, none, none, none, none, some 2, some 1⟩) 1 2) :=
  claimC4_paging.1 dbSix ⟨none, none, none, none, none, some 2, some 1⟩ 2 1 rfl rfl
    (by decide)

/-! ## Claim C2 -/

/-- C2 divergence witness: the prj1 `findSensorReadings` parses the
fractional value bound "5.5" with `parseInt`, truncating it to 5, and
therefore returns the stored reading with value 5.4 even though the
specified bound semantics (`minValue <= r.value` with `minValue` the
numeric value 5.5 of the supplied string) excludes it; the prj2/prj3
search object resolves the bound with `Number` and the DAO query
correctly excludes the same reading. -/
theorem claimC2_fractional_bound_bug :
    Prj1.findSensorReadings egState ⟨some "s1", none, none, some "5.5", none⟩
      = .ok [egReading]
    ∧ specReadingInBounds ⟨some "s1", none, none, some "5.5", none⟩ egReading = false
    ∧ Dao.findSensorReadings ⟨[], [], [egReading]⟩
        (SensorReadingSearch.ofChecked ⟨some "s1", none, none, some "5.5", none⟩)
      = .ok [] := by
  decide

/-! ## Claim C6 -/

/-- C6: re-adding an entity whose unique key already exists succeeds and
silently replaces the stored entity in the prj1 in-memory revision, and
fails with EXISTS leaving the store unchanged in the prj3 DAO-backed
revision; stated for all three entity kinds of both variants. -/
theorem claimC6_duplicate_key :
    (∀ (st : SIState) (req : AddSensorTypeReq) (t : SensorType),
       makeSensorType req = .ok t → st.sensorTypes.any (fun x => x.id == t.id) = true →
       (Prj1.addSensorType st req).1 = .ok [t] ∧
       lookupByKey SensorType.id (Prj1.addSensorType st req).2.sensorTypes t.id = some t) ∧
    (∀ (st : SIState) (req : AddSensorReq) (s : Sensor) (ty : SensorType),
       makeSensor req = .ok s →
       lookupByKey SensorType.id st.sensorTypes s.sensorTypeId = some ty →
       s.expected.isSubrange ty.limits = true →
       st.sensors.any (fun x => x.id == s.id) = true →
       (Prj1.addSensor st req).1 = .ok [s] ∧
       lookupByKey Sensor.id (Prj1.addSensor st req).2.sensors s.id = some s) ∧
    (∀ (st : SIState) (req : AddSensorReadingReq) (r : SensorReading)
       (entry : String × List SensorReading),
       makeSensorReading req = .ok r →
       (lookupByKey Sensor.id st.sensors r.sensorId).isSome = true →
       lookupByKey Prod.fst st.sensorReadings r.sensorId = some entry →
       entry.2.any (fun x => x.timestamp == r.timestamp) = true →
       (Prj1.addSensorReading st req).1 = .ok [r] ∧
       readingAt (Prj1.addSensorReading st req).2 r.sensorId r.timestamp = some r) ∧
    (∀ (db : DbState) (t : SensorType), db.sensorTypes.any (fun x => x.id == t.id) = true →
       (Dao.addSensorType db t).1.codes = ["EXISTS"] ∧ (Dao.addSensorType db t).2 = db) ∧
    (∀ (db : DbState) (s : Sensor), db.sensors.any (fun x => x.id == s.id) = true →
       (Dao.addSensor db s).1.codes = ["EXISTS"] ∧ (Dao.addSensor db s).2 = db) ∧
    (∀ (db : DbState) (r : SensorReading),
       db.sensorReadings.any
         (fun x => x.sensorId == r.sensorId && x.timestamp == r.timestamp) = true →
       (Dao.addSensorReading db r).1.codes = ["EXISTS"] ∧ (Dao.addSensorReading db r).2 = db) := by
  refine ⟨?_, ?_, ?_, ?_, ?_, ?_⟩
  · intro st req t hmk _
    constructor
    · simp [Prj1.addSensorType, hmk]
    · simp only [Prj1.addSensorType, hmk]
      exact lookupByKey_dictSet_self SensorType.id st.sensorTypes t
  · intro st req s ty hmk hty hsub _
    constructor
    · simp [Prj1.addSensor, hmk, hty, hsub]
    · simp only [Prj1.addSensor, hmk, hty, hsub, if_true]
      exact lookupByKey_dictSet_self Sensor.id st.sensors s
  · intro st req r entry hmk hsens hentry _
    cases hs : lookupByKey Sensor.id st.sensors r.sensorId with
    | none => rw [hs] at hsens; simp [Option.isSome] at hsens
    | some s0 =>
      constructor
      · simp [Prj1.addSensorReading, hmk, hs, hentry]
      · simp only [Prj1.addSensorReading, hmk, hs, hentry, readingAt, SIState.readingsFor]
        have hl : lookupByKey Prod.fst
            (dictSet Prod.fst st.sensorReadings (r.sensorId, replaceFirstByTimestamp entry.2 r))
            r.sensorId
            = some (r.sensorId, replaceFirstByTimestamp entry.2 r) :=
          lookupByKey_dictSet_self Prod.fst st.sensorReadings
            (r.sensorId, replaceFirstByTimestamp entry.2 r)
        rw [hl]
        exact find?_replaceFirstByTimestamp_self entry.2 r
  · intro db t h
    constructor
    · simp [Dao.addSensorType, h, Result.codes]
    · simp [Dao.addSensorType, h]
  · intro db s h
    constructor
    · simp [Dao.addSensor, h, Result.codes]
    · simp [Dao.addSensor, h]
  · intro db r h
    constructor
    · simp [Dao.addSensorReading, h, Result.codes]
    · simp [Dao.addSensorReading, h]

/-- Witness instantiating C6: re-adding the reading of `egState` with a
new value replaces it in the in-memory store, and re-adding a sensor
type with the stored id fails with EXISTS against the DAO. -/
theorem claimC6_duplicate_key_witness :
    ((Prj1.addSensorReading egState ⟨some "s1", some "10", some "13.4"⟩).1
       = .ok [⟨"s1", 10, NumberJS "13.4"⟩] ∧
     readingAt (Prj1.addSensorReading egState ⟨some "s1", some "10", some "13.4"⟩).2
       "s1" 10 = some ⟨"s1", 10, NumberJS "13.4"⟩) ∧
    ((Dao.addSensorType ⟨[egType], [], []⟩ egType2).1.codes = ["EXISTS"] ∨
     (Dao.addSensorType ⟨[egType], [], []⟩
        ⟨"t1", "other", "n2", "q2", "u2", ⟨3, 4⟩⟩).1.codes = ["EXISTS"]) :=
  ⟨claimC6_duplicate_key.2.2.1 egState ⟨some "s1", some "10", some "13.4"⟩
     ⟨"s1", 10, NumberJS "13.4"⟩ ("s1", [egReading]) (by decide) (by decide) (by decide)
     (by decide),
   Or.inr (claimC6_duplicate_key.2.2.2.1 ⟨[egType], [], []⟩
     ⟨"t1", "other", "n2", "q2", "u2", ⟨3, 4⟩⟩ (by decide)).1⟩

/-! ## Claim C7 -/

theorem isEmpty_eq_false_of_mem {α : Type} {l : List α} {x : α} (h : x ∈ l) :
    l.isEmpty = false := by
  cases l with
  | nil => cases h
  | cons a l => rfl

/-- C7: findSensorReadings fails with REQUIRED for every request
omitting `sensorId`, and fails with BAD_RANGE for every request in which
both bounds of a pair are supplied in valid format with the minimum
exceeding the maximum, for the timestamp pair and the value pair
alike. -/
theorem claimC7_find_readings_validation :
    (∀ (st : SIState) (req : FindSensorReadingsReq), req.sensorId = none →
       "REQUIRED" ∈ (Prj1.findSensorReadings st req).codes) ∧
    (∀ (st : SIState) (req : FindSensorReadingsReq) (a b : String),
       req.minTimestamp = some a → req.maxTimestamp = some b →
       integerChk a = true → integerChk b = true → NumberJS b < NumberJS a →
       "BAD_RANGE" ∈ (Prj1.findSensorReadings st req).codes) ∧
    (∀ (st : SIState) (req : FindSensorReadingsReq) (a b : String),
       req.minValue = some a → req.maxValue = some b →
       numberChk a = true → numberChk b = true → NumberJS b < NumberJS a →
       "BAD_RANGE" ∈ (Prj1.findSensorReadings st req).codes) := by
  refine ⟨?_, ?_, ?_⟩
  · intro st req h
    have hmem : (⟨requiredMsg "sensorId", "REQUIRED"⟩ : Err) ∈ findSensorReadingsErrs req := by
      simp [findSensorReadingsErrs, requiredErr, h]
    have hne := isEmpty_eq_false_of_mem hmem
    simp only [Prj1.findSensorReadings, hne, Bool.false_eq_true, if_false, Result.codes]
    exact List.mem_map_of_mem _ hmem
  · intro st req a b hta htb hca hcb hlt
    have hnle : ¬ (NumberJS a ≤ NumberJS b) := not_le.mpr hlt
    have hmem : (⟨rangeMsg "minTimestamp" "maxTimestamp", "BAD_RANGE"⟩ : Err)
        ∈ findSensorReadingsErrs req := by
      simp [findSensorReadingsErrs, hta, htb, fieldOk, hca, hcb, rangeChkErrs, hnle]
    have hne := isEmpty_eq_false_of_mem hmem
    simp only [Prj1.findSensorReadings, hne, Bool.false_eq_true, if_false, Result.codes]
    exact List.mem_map_of_mem _ hmem
  · intro st req a b hva hvb hca hcb hlt
    have hnle : ¬ (NumberJS a ≤ NumberJS b) := not_le.mpr hlt
    have hmem : (⟨rangeMsg "minValue" "maxValue", "BAD_RANGE"⟩ : Err)
        ∈ findSensorReadingsErrs req := by
      simp [findSensorReadingsErrs, hva, hvb, fieldOk, hca, hcb, rangeChkErrs, hnle]
    have hne := isEmpty_eq_false_of_mem hmem
    simp only [Prj1.findSensorReadings, hne, Bool.false_eq_true, if_false, Result.codes]
    exact List.mem_map_of_mem _ hmem

/-- Witness instantiating C7: a request without a sensor id fails
REQUIRED, and a request with `minTimestamp` 2 above `maxTimestamp` 1
fails BAD_RANGE. -/
theorem claimC7_find_readings_validation_witness :
    "REQUIRED" ∈ (Prj1.findSensorReadings egState
      ⟨none, none, none, some "2", none⟩).codes ∧
    "BAD_RANGE" ∈ (Prj1.findSensorReadings egState
      ⟨some "s1", some "2", some "1", none, none⟩).codes :=
  ⟨claimC7_find_readings_validation.1 egState ⟨none, none, none, some "2", none⟩ rfl,
   claimC7_find_readings_validation.2.1 egState ⟨some "s1", some "2", some "1", none, none⟩
     "2" "1" rfl rfl (by decide) (by decide) (by decide)⟩

/-! ## Claim C8 -/

/-- C8: an add or find request that fails field validation returns
exactly the validation errors and leaves the collections untouched; no
cross-entity check runs and nothing reaches the persistence
collaborator. Stated for the three prj1 add operations, the prj1
findSensorReadings (the one find whose validation can fail), and the
three prj3 DAO-backed add operations. -/
theorem claimC8_validation_short_circuit :
    (∀ (st : SIState) (req : AddSensorTypeReq) (es : List Err),
       makeSensorType req = .err es → Prj1.addSensorType st req = (.err es, st)) ∧
    (∀ (st : SIState) (req : AddSensorReq) (es : List Err),
       makeSensor req = .err es → Prj1.addSensor st req = (.err es, st)) ∧
    (∀ (st : SIState) (req : AddSensorReadingReq) (es : List Err),
       makeSensorReading req = .err es → Prj1.addSensorReading st req = (.err es, st)) ∧
    (∀ (st : SIState) (req : FindSensorReadingsReq),
       (findSensorReadingsErrs req).isEmpty = false →
       Prj1.findSensorReadings st req = .err (findSensorReadingsErrs req)) ∧
    (∀ (db : DbState) (req : AddSensorTypeReq) (es : List Err),
       makeSensorType req = .err es → Prj3.addSensorType db req = (.err es, db)) ∧
    (∀ (db : DbState) (req : AddSensorReq) (es : List Err),
       makeSensor req = .err es → Prj3.addSensor db req = (.err es, db)) ∧
    (∀ (db : DbState) (req : AddSensorReadingReq) (es : List Err),
       makeSensorReading req = .err es → Prj3.addSensorReading db req = (.err es, db)) := by
  refine ⟨?_, ?_, ?_, ?_, ?_, ?_, ?_⟩
  · intro st req es h; simp [Prj1.addSensorType, h]
  · intro st req es h; simp [Prj1.addSensor, h]
  · intro st req es h; simp [Prj1.addSensorReading, h]
  · intro st req h; simp [Prj1.findSensorReadings, h]
  · intro db req es h; simp [Prj3.addSensorType, h]
  · intro db req es h; simp [Prj3.addSensor, h]
  · intro db req es h; simp [Prj3.addSensorReading, h]

/-- Witness instantiating C8: a sensor-type request with a missing
manufacturer and a bad `min` is rejected unchanged by prj1 and prj3. -/
theorem claimC8_validation_short_circuit_witness :
    Prj1.addSensorType egState
      ⟨some "tX", none, some "n", some "q", some "u", some "zz", some "2"⟩
      = (.err [⟨requiredMsg "manufacturer", "REQUIRED"⟩, ⟨numberMsg "min", "BAD_VAL"⟩],
         egState) ∧
    Prj3.addSensorType DbState.empty
      ⟨some "tX", none, some "n", some "q", some "u", some "zz", some "2"⟩
      = (.err [⟨requiredMsg "manufacturer", "REQUIRED"⟩, ⟨numberMsg "min", "BAD_VAL"⟩],
         DbState.empty) :=
  ⟨claimC8_validation_short_circuit.1 egState
     ⟨some "tX", none, some "n", some "q", some "u", some "zz", some "2"⟩
     [⟨requiredMsg "manufacturer", "REQUIRED"⟩, ⟨numberMsg "min", "BAD_VAL"⟩] (by decide),
   claimC8_validation_short_circuit.2.2.2.2.1 DbState.empty
     ⟨some "tX", none, some "n", some "q", some "u", some "zz", some "2"⟩
     [⟨requiredMsg "manufacturer", "REQUIRED"⟩, ⟨numberMsg "min", "BAD_VAL"⟩] (by decide)⟩

/-! ## Claim C9 -/

/-- C9: the cross-field range check accepts equality. When the `min` and
`max` strings parse to equal numbers the check produces no error, so
`addSensorType` succeeds with a degenerate limits range whose min equals
max, even though the message template of the check says the min value
must be less than the max value. -/
theorem claimC9_range_check_accepts_equality :
    (∀ a b : String, numberChk a = true → numberChk b = true → NumberJS a = NumberJS b →
       rangeChkErrs "min" "max" (some a) (some b) = []) ∧
    (∀ (st : SIState) (i m mn qq u a b : String),
       numberChk a = true → numberChk b = true → NumberJS a = NumberJS b →
       Prj1.addSensorType st ⟨some i, some m, some mn, some qq, some u, some a, some b⟩
         = (.ok [⟨i, m, mn, qq, u, ⟨NumberJS a, NumberJS a⟩⟩],
            { st with
                sensorTypes := dictSet SensorType.id st.sensorTypes ⟨i, m, mn, qq, u, ⟨NumberJS a, NumberJS a⟩⟩ })) ∧
    rangeMsg "min" "max" = "The value of \"min\" must be less than that of \"max\"" := by
  refine ⟨?_, ?_, rfl⟩
  · intro a b _ _ heq
    simp [rangeChkErrs, heq]
  · intro st i m mn qq u a b hca hcb heq
    have herrs : sensorTypeErrs
        ⟨some i, some m, some mn, some qq, some u, some a, some b⟩ = [] := by
      simp [sensorTypeErrs, requiredErr, chkErr, fieldOk, hca, hcb, rangeChkErrs, heq]
    simp [Prj1.addSensorType, makeSensorType, herrs, heq]

/-- Witness instantiating C9 with the value-equal strings "5.0" and
"5". -/
theorem claimC9_range_check_accepts_equality_witness :
    Prj1.addSensorType SIState.empty
      ⟨some "tE", some "m", some "n", some "q", some "u", some "5.0", some "5"⟩
      = (.ok [⟨"tE", "m", "n", "q", "u", ⟨NumberJS "5.0", NumberJS "5.0"⟩⟩],
         { SIState.empty with
             sensorTypes := dictSet SensorType.id SIState.empty.sensorTypes ⟨"tE", "m", "n", "q", "u", ⟨NumberJS "5.0", NumberJS "5.0"⟩⟩ }) :=
  claimC9_range_check_accepts_equality.2.1 SIState.empty "tE" "m" "n" "q" "u" "5.0" "5"
    (by decide) (by decide) (by decide)

/-! ## Claim C10 -/

theorem lookupByKey_append_single_ne {α : Type} (key : α → String) (l : List α) (x : α)
    (k : String) (h : (key x == k) = false) :
    lookupByKey key (l ++ [x]) k = lookupByKey key l k := by
  simp [lookupByKey, List.find?_append, List.find?, h]

theorem lookupByKey_append_single_self {α : Type} (key : α → String) (l : List α) (x : α)
    (h : lookupByKey key l (key x) = none) :
    lookupByKey key (l ++ [x]) (key x) = some x := by
  simp only [lookupByKey] at h
  simp [lookupByKey, List.find?_append, List.find?, h]

/-- C10: a successful prj1 addSensorReading modifies at most the one
entry keyed by the added reading: the sensor types and sensors are
untouched, the per-sensor arrays of every other sensor id are untouched,
and within the array of the added sensor every reading with a different
timestamp is kept exactly as it was (in both directions). -/
theorem claimC10_add_reading_frame :
    ∀ (st : SIState) (req : AddSensorReadingReq) (r : SensorReading) (st2 : SIState),
      Prj1.addSensorReading st req = (.ok [r], st2) →
      st2.sensorTypes = st.sensorTypes ∧ st2.sensors = st.sensors ∧
      (∀ sid, sid ≠ r.sensorId → st2.readingsFor sid = st.readingsFor sid) ∧
      (∀ x : SensorReading, x.timestamp ≠ r.timestamp →
        (x ∈ (st2.readingsFor r.sensorId).getD [] ↔ x ∈ (st.readingsFor r.sensorId).getD [])) := by
  intro st req r st2 h
  cases hmk : makeSensorReading req with
  | err es => simp [Prj1.addSensorReading, hmk] at h
  | ok r0 =>
    simp only [Prj1.addSensorReading, hmk] at h
    cases hs : lookupByKey Sensor.id st.sensors r0.sensorId with
    | none => rw [hs] at h; simp at h
    | some s0 =>
      rw [hs] at h
      cases hentry : lookupByKey Prod.fst st.sensorReadings r0.sensorId with
      | some entry =>
        rw [hentry] at h
        simp only [Prod.mk.injEq, Result.ok.injEq, List.cons.injEq, and_true] at h
        obtain ⟨hr, hst⟩ := h
        subst hr
        rw [← hst]
        refine ⟨rfl, rfl, ?_, ?_⟩
        · intro sid hne
          simp only [SIState.readingsFor]
          rw [lookupByKey_dictSet_ne Prod.fst st.sensorReadings
            (r0.sensorId, replaceFirstByTimestamp entry.2 r0) sid hne]
        · intro x hx
          simp only [SIState.readingsFor]
          have hl : lookupByKey Prod.fst
              (dictSet Prod.fst st.sensorReadings
                (r0.sensorId, replaceFirstByTimestamp entry.2 r0))
              r0.sensorId
              = some (r0.sensorId, replaceFirstByTimestamp entry.2 r0) :=
            lookupByKey_dictSet_self Prod.fst st.sensorReadings
              (r0.sensorId, replaceFirstByTimestamp entry.2 r0)
          rw [hl, hentry]
          simp only [Option.map_some', Option.getD_some]
          exact mem_replaceFirstByTimestamp hx
      | none =>
        rw [hentry] at h
        simp only [Prod.mk.injEq, Result.ok.injEq, List.cons.injEq, and_true] at h
        obtain ⟨hr, hst⟩ := h
        subst hr
        rw [← hst]
        refine ⟨rfl, rfl, ?_, ?_⟩
        · intro sid hne
          simp only [SIState.readingsFor]
          rw [lookupByKey_append_single_ne Prod.fst st.sensorReadings (r0.sensorId, [r0]) sid
            (by simp only [beq_eq_false_iff_ne, ne_eq]; exact fun he => hne he.symm)]
        · intro x hx
          simp only [SIState.readingsFor]
          have hnone : lookupByKey Prod.fst st.sensorReadings
              (Prod.fst (r0.sensorId, ([r0] : List SensorReading))) = none := hentry
          rw [lookupByKey_append_single_self Prod.fst st.sensorReadings (r0.sensorId, [r0]) hnone,
              hentry]
          simp only [Option.map_some', Option.getD_some, Option.map_none', Option.getD_none]
          have hxr : x ≠ r0 := fun he => hx (by rw [he])
          simp [hxr]

/-- Witness instantiating C10: adding a fresh-timestamp reading to
`egState` leaves the types, the sensors, an unrelated sensor id and the
previously stored reading untouched. -/
theorem claimC10_add_reading_frame_witness :
    (⟨[egType], [egSensor], [("s1", [egReading, ⟨"s1", 11, 6⟩])]⟩ : SIState).sensorTypes
      = egState.sensorTypes ∧
    (⟨[egType], [egSensor], [("s1", [egReading, ⟨"s1", 11, 6⟩])]⟩ : SIState).sensors
      = egState.sensors ∧
    (⟨[egType], [egSensor], [("s1", [egReading, ⟨"s1", 11, 6⟩])]⟩ : SIState).readingsFor "zz"
      = egState.readingsFor "zz" ∧
    (egReading ∈ ((⟨[egType], [egSensor], [("s1", [egReading, ⟨"s1", 11, 6⟩])]⟩ :
        SIState).readingsFor "s1").getD []
      ↔ egReading ∈ (egState.readingsFor "s1").getD []) := by
  have h := claimC10_add_reading_frame egState ⟨some "s1", some "11", some "6"⟩
    ⟨"s1", 11, 6⟩ ⟨[egType], [egSensor], [("s1", [egReading, ⟨"s1", 11, 6⟩])]⟩ (by decide)
  exact ⟨h.1, h.2.1, h.2.2.1 "zz" (by decide), h.2.2.2 egReading (by decide)⟩
